import Mathlib

/-!
Verification of the template resolution and composition engine of
`typhos/display.py` (`TyphosDeviceDisplay`), via a shallow embedding.

Conventions of the embedding:
* Paths and class names are `String`s; `pathlib.Path(...).resolve()` is treated
  as the identity on the already-absolute path strings exchanged here.
* Python dicts are insertion-ordered association lists; key lookup returns the
  first (unique) matching entry, and `d[k] = v` on a missing key appends.
* Stateful methods become functions `ComposerState → ComposerState`, paired
  with the list of log-record severities they emit.  A method that can raise
  an uncaught Python exception returns `Except PyErr _`.
* The external collaborators that are out of scope for the module
  (`utils.find_templates_for_class`, the pydm template loader, device
  construction) are parameters of the corresponding functions.
-/

namespace Typhos

/-- `DisplayTypes` enum from `display.py` (lines 22-26). -/
inductive DisplayTypes where
  | embedded_screen
  | detailed_screen
  | engineering_screen
deriving DecidableEq, Repr

/-- `DisplayTypes.<member>.name` in Python. -/
def DisplayTypes.name : DisplayTypes → String
  | .embedded_screen => "embedded_screen"
  | .detailed_screen => "detailed_screen"
  | .engineering_screen => "engineering_screen"

/-- Iteration order of `for display_type in DisplayTypes`. -/
def DisplayTypes.all : List DisplayTypes :=
  [.embedded_screen, .detailed_screen, .engineering_screen]

/-- Keys of a Python macro dictionary.  A key is either a plain string or a
`DisplayTypes` member (an `IntEnum` member hashes like its integer value, so a
`DisplayTypes` key and the corresponding `int` key are identified here). -/
inductive MKey where
  | str (s : String)
  | enum (v : DisplayTypes)
deriving DecidableEq, Repr

/-- A Python dict used for macros: insertion-ordered association list. -/
abbrev Macros := List (MKey × String)

/-- First-match lookup in an association list (Python `d[k]` / `k in d`). -/
def mlookup : Macros → MKey → Option String
  | [], _ => none
  | (k, v) :: rest, key => if k = key then some v else mlookup rest key

/-- Uncaught Python exceptions that the functions below can raise. -/
inductive PyErr where
  | attributeError
  | unboundLocalError
deriving DecidableEq, Repr

/-- Log-record severities; `logger.exception` emits one `error` record. -/
inductive LogLevel where
  | debug
  | warning
  | error
deriving DecidableEq, Repr

/-- A widget subtree.  `placeholder` is a bare `QtWidgets.QWidget()`;
`loaded p` is the subtree produced by `_load_template` from path `p`. -/
inductive Widget where
  | placeholder
  | loaded (path : String)
deriving DecidableEq, Repr

/-- An ophyd device as seen by `display.py`: its `.name`, an optional
`.prefix` attribute (`prefix_attr`), an optional happi metadata mapping
(`md`, holding the result of `device.md.post()`), and the identity of its
class (used for the class-hierarchy template search). -/
structure Device where
  name : String
  prefix_attr : Option String
  md : Option Macros
  cls : String
deriving DecidableEq, Repr

/-- Modelled from the spec: `utils.ui_dir`, the built-in template directory
(an opaque absolute location; `utils.py` is not part of the sources given). -/
def ui_dir : String := "/typhos/ui"

/-- The built-in default path `(utils.ui_dir / f'{type_.name}.ui').resolve()`
for one view (`DEFAULT_TEMPLATES`, lines 31-34). -/
def default_template_path (dt : DisplayTypes) : String :=
  ui_dir ++ "/" ++ dt.name ++ ".ui"

/-- `DEFAULT_TEMPLATES[view]`: the one-element list built by the dict
comprehension at lines 31-34. -/
def DEFAULT_TEMPLATES (dt : DisplayTypes) : List String :=
  [default_template_path dt]

/-- State of a `TyphosDeviceDisplay` after construction.  Field names mirror
the instance attributes (leading underscores dropped); `hasLayout` is whether
`self.layout()` is non-`None` (it is `false` only for the transient
pre-`setLayout` phase discussed at lines 187-192), and `layout` is the list of
widgets currently added to the `QHBoxLayout`. -/
structure ComposerState where
  hasLayout : Bool
  forced_template : String
  macros : Macros
  main_widget : Option Widget
  display_type : DisplayTypes
  templates : DisplayTypes → List String
  current_template : Option String
  layout : List Widget
  devices : List Device

/-- The `device` property (lines 155-162): the sole bound device, or `None`
when the devices cache does not hold exactly one entry. -/
def ComposerState.device (s : ComposerState) : Option Device :=
  match s.devices with
  | [d] => some d
  | _ => none

/-- `_get_templates_from_macros` (lines 221-236), iterating over the tail of
`DisplayTypes.all`.  Per view the method first stores `ret[name] = None`, then
looks up `self._macros[display_type]` — note: keyed by the enum member itself,
not by the view's name, and read from `self._macros` although the method also
computed a local `macros` (its `macros` parameter is effectively unused).  If
the key is present, line 232 reads `self._templates_from_macros`, an attribute
that is never assigned anywhere in the class, so an `AttributeError` escapes
before the file-existence check can run. -/
def get_templates_from_macros_aux (selfMacros : Macros) :
    List DisplayTypes → Except PyErr (List (String × Option String))
  | [] => .ok []
  | dt :: rest =>
    match mlookup selfMacros (.enum dt) with
    | none => (get_templates_from_macros_aux selfMacros rest).map
        (fun r => (dt.name, none) :: r)
    | some _ => .error .attributeError

/-- `_get_templates_from_macros(self, macros=None)`.  The `macroArg`
parameter mirrors the Python `macros` argument, which the body shadows and
never consults (line 227 reads `self._macros`). -/
def _get_templates_from_macros (selfMacros : Macros) (macroArg : Option Macros) :
    Except PyErr (List (String × Option String)) :=
  let _ := macroArg
  get_templates_from_macros_aux selfMacros DisplayTypes.all

/-- Value of `macro_templates[display_type.name]` given the dict returned by
`_get_templates_from_macros`. -/
def macro_lookup (mt : List (String × Option String)) (view : String) : Option String :=
  match mt with
  | [] => none
  | (k, v) :: rest => if k = view then v else macro_lookup rest view

/-- `if filename not in template_list: template_list.append(filename)`. -/
def insert_if_absent (tl : List String) (f : String) : List String :=
  if f ∈ tl then tl else tl ++ [f]

/-- The body of the per-view loop of `search_for_templates` (lines 336-358):
clear the list, append the macro candidate if present (the membership test on
the just-cleared list kept literally), append each hierarchy filename not yet
present, then extend with the defaults not yet present (the comprehension at
lines 355-358 tests membership against the list as it stood before step 3). -/
def merge_view (macro_template : Option String) (filenames : List String)
    (defaults : List String) : List String :=
  let tl0 : List String := []
  let tl1 := match macro_template with
             | some m => if m ∈ tl0 then tl0 else tl0 ++ [m]
             | none => tl0
  let tl2 := filenames.foldl insert_if_absent tl1
  tl2 ++ defaults.filter (fun t => decide (t ∉ tl2))

/-- `view = display_type.name` stripped of a trailing `_screen`
(lines 332-334). -/
def strip_screen (view : String) : String :=
  if view.endsWith "_screen" then (view.splitOn "_screen").headD view else view

/-- `search_for_templates` (lines 313-358).  `ftc cls view` stands for the
output of the external `utils.find_templates_for_class(cls, view,
directories)` scan (modelled from the spec as a deterministic function of the
class and view for a fixed filesystem).  Returns the state unchanged when no
single device is bound; propagates the `AttributeError` of
`_get_templates_from_macros`.  Debug-only logging is omitted. -/
def search_for_templates (ftc : String → String → List String)
    (s : ComposerState) : Except PyErr ComposerState :=
  match s.device with
  | none => .ok s
  | some device =>
    match _get_templates_from_macros s.macros (some s.macros) with
    | .error e => .error e
    | .ok macro_templates =>
      .ok { s with templates := (fun dt =>
              merge_view (macro_lookup macro_templates dt.name)
                (ftc device.cls (strip_screen dt.name)) (DEFAULT_TEMPLATES dt)) }

/-- `get_best_template` (lines 164-173), return value: first entry of the
active view's list, else `None`.  (The method normalises an enum argument to
its `.name` and indexes `self.templates` with it; the embedding keys
`templates` by the enum directly, which is equivalent since `.name` is
injective.) -/
def get_best_template (s : ComposerState) (display_type : DisplayTypes) :
    Option String :=
  List.head? (s.templates display_type)

/-- `get_best_template` (lines 164-173), emitted log severities: one warning
exactly when the active view's list is empty. -/
def get_best_template_logs (s : ComposerState) (display_type : DisplayTypes) :
    List LogLevel :=
  if s.templates display_type = [] then [LogLevel.warning] else []

/-- The template chosen at lines 201-202:
`self._forced_template or self.get_best_template(...)` (the empty string is
falsy). -/
def chosen_template (s : ComposerState) : Option String :=
  if s.forced_template ≠ "" then some s.forced_template
  else get_best_template s s.display_type

/-- `load_best_template` (lines 175-219).  `loadOk p` tells whether the
external `_load_template` collaborator succeeds on path `p` (any exception it
raises is caught by the bare `except Exception`).  Mirrors the source: early
return when the layout is not yet set; clear the layout when a main widget
exists; `self._macros = macros or self._macros` (a `None` or empty argument
keeps the old dict); choose the forced template or the registry head; in the
no-candidate branch create the placeholder and return *before* the
`try/finally` whose `finally` performs `self.layout().addWidget(...)`; in the
load branch, mount the loaded widget on success or log one error and mount a
placeholder on failure.  Debug records mirror lines 196, 239 and 243/247. -/
def load_best_template (loadOk : String → Bool) (macroArg : Option Macros)
    (s : ComposerState) : ComposerState × List LogLevel :=
  if s.hasLayout = false then (s, [])
  else
    let s1 := if s.main_widget.isSome then { s with layout := [] } else s
    let logs1 : List LogLevel :=
      if s.main_widget.isSome then [LogLevel.debug] else []
    let s2 := { s1 with macros := match macroArg with
                                  | some m => if m = [] then s1.macros else m
                                  | none => s1.macros }
    let tmpl := if s2.forced_template ≠ "" then some s2.forced_template
      else get_best_template s2 s2.display_type
    let logs2 := if s2.forced_template ≠ "" then []
      else get_best_template_logs s2 s2.display_type
    match tmpl with
    | none =>
      ({ s2 with main_widget := some Widget.placeholder, current_template := none },
       logs1 ++ logs2)
    | some path =>
      if loadOk path then
        ({ s2 with main_widget := some (Widget.loaded path),
                   current_template := some path,
                   layout := s2.layout ++ [Widget.loaded path] },
         logs1 ++ logs2 ++ [LogLevel.debug, LogLevel.debug])
      else
        ({ s2 with main_widget := some Widget.placeholder,
                   current_template := none,
                   layout := s2.layout ++ [Widget.placeholder] },
         logs1 ++ logs2 ++ [LogLevel.debug, LogLevel.debug, LogLevel.error])

/-- The state assembled by `__init__` (lines 70-84) just before its
`load_best_template()` call: empty forced template and macro dict, no main
widget, `detailed_screen` active, one empty template list per view, the
`QHBoxLayout` installed and empty, no devices.  `current_template` is first
assigned by that very call; the field is initialised to `none` here and
immediately overwritten below. -/
def pre_init_state : ComposerState where
  hasLayout := true
  forced_template := ""
  macros := []
  main_widget := none
  display_type := .detailed_screen
  templates := fun _ => []
  current_template := none
  layout := []
  devices := []

/-- A freshly constructed `TyphosDeviceDisplay`: `__init__` runs
`load_best_template()` once (no template can be chosen at that point, so the
`loadOk` collaborator is irrelevant; it is threaded for faithfulness). -/
def init_state (loadOk : String → Bool) : ComposerState :=
  (load_best_template loadOk none pre_init_state).1

/-- The effective starting macro mapping of `add_device` (lines 299-303):
the explicit argument when it is a non-empty dict, else `device.md.post()`
when the device has an `md` attribute, else an empty dict. -/
def effective_base_macros (device : Device) (macroArg : Option Macros) : Macros :=
  let fallback := match device.md with
                  | some m => m
                  | none => []
  match macroArg with
  | some m => if m = [] then fallback else m
  | none => fallback

/-- Lines 305-306 of `add_device`: `if 'name' not in macros:
macros['name'] = device.name` (dict assignment on a missing key appends). -/
def derive_macros_name_step (device : Device) (m0 : Macros) : Macros :=
  if mlookup m0 (.str "name") = none then m0 ++ [(.str "name", device.name)] else m0

/-- Lines 299-308 of `add_device`: derive the macro dict that
`load_best_template` is called with — the effective base mapping with
`'name'` (and, when the device has a `prefix` attribute, `'prefix'`)
appended when absent. -/
def derive_macros (device : Device) (macroArg : Option Macros) : Macros :=
  let m1 := derive_macros_name_step device (effective_base_macros device macroArg)
  if mlookup m1 (.str "prefix") = none then
    match device.prefix_attr with
    | some p => m1 ++ [(.str "prefix", p)]
    | none => m1
  else m1

/-- Lines 292-297 of `add_device`: clear the devices cache when non-empty and
append the new device (the `super().add_device` cache append is modelled from
the spec, `utils.TyphosBase` not being among the given sources). -/
def add_device_pre (device : Device) (s : ComposerState) : ComposerState :=
  let s1 := if s.devices ≠ [] then { s with devices := [] } else s
  { s1 with devices := s1.devices ++ [device] }

/-- `add_device` (lines 276-311): rebind the device cache, derive the macros,
run `search_for_templates` (which may raise) and then
`load_best_template(macros=...)`. -/
def add_device (loadOk : String → Bool) (ftc : String → String → List String)
    (device : Device) (macroArg : Option Macros) (s : ComposerState) :
    Except PyErr (ComposerState × List LogLevel) :=
  (search_for_templates ftc (add_device_pre device s)).map
    (fun s3 => load_best_template loadOk (some (derive_macros device macroArg)) s3)

/-- The `force_template` property setter (lines 270-274): store the new value
when it differs and re-resolve with the current macros. -/
def set_force_template (loadOk : String → Bool) (value : String)
    (s : ComposerState) : ComposerState × List LogLevel :=
  if value ≠ s.forced_template then
    load_best_template loadOk (some s.macros) { s with forced_template := value }
  else (s, [])

/-- `from_device` (lines 361-384): construct a display, set the forced
template when one is given (`if template:` — `None` and the empty string are
falsy), then `add_device`. -/
def from_device (loadOk : String → Bool) (ftc : String → String → List String)
    (device : Device) (template : Option String) (macroArg : Option Macros) :
    Except PyErr (ComposerState × List LogLevel) :=
  let disp := init_state loadOk
  let disp := match template with
              | some t => if t ≠ "" then (set_force_template loadOk t disp).1 else disp
              | none => disp
  add_device loadOk ftc device macroArg disp

/-- `from_class` (lines 386-415).  `get_instance_by_name` stands for the
external `pcdsutils.utils.get_instance_by_name`.  When it raises, the
`except` block evaluates `logger.exception('... %s', obj)` — but `obj` is the
local the failed assignment never bound, so the handler itself raises
`UnboundLocalError`, which propagates to the caller. -/
def from_class (loadOk : String → Bool) (ftc : String → String → List String)
    (get_instance_by_name : String → Except String Device) (klass : String)
    (template : Option String) (macroArg : Option Macros) :
    Except PyErr (ComposerState × List LogLevel) :=
  match get_instance_by_name klass with
  | .error _ => .error .unboundLocalError
  | .ok obj => from_device loadOk ftc obj template macroArg

/-- Spec-side characterisation of the merge: deduplication of a concatenated
candidate sequence where the first occurrence of each path wins. -/
def dedup_first (l : List String) : List String :=
  l.foldl insert_if_absent []

/-- Concrete devices used by the witness theorems below. -/
def motor_device : Device := ⟨"mot", some "PV:", none, "Motor"⟩

def device_d1 : Device := ⟨"d1", some "P1:", none, "MotorA"⟩

def device_d2 : Device := ⟨"d2", some "P2:", none, "MotorB"⟩

/-- A concrete composer state with one bound device. -/
def motor_state : ComposerState :=
  { pre_init_state with devices := [motor_device] }

/-- The per-view dict `_get_templates_from_macros` returns on a macro mapping
without enum keys. -/
def all_none_mt : List (String × Option String) :=
  [("embedded_screen", none), ("detailed_screen", none), ("engineering_screen", none)]

/-- `motor_state` after one `search_for_templates` with a scan that finds one
hierarchy template. -/
def motor_searched : ComposerState :=
  { motor_state with
      templates := fun dt =>
        merge_view (macro_lookup all_none_mt dt.name)
          ["/app/templates/Motor_detailed.ui"] (DEFAULT_TEMPLATES dt) }

/-- Result state of `add_device device_d1 none` on a fresh composer (scan
finding nothing, loader succeeding). -/
def c7_state1 : ComposerState :=
  { pre_init_state with
      devices := [device_d1],
      templates := fun dt =>
        merge_view (macro_lookup all_none_mt dt.name) [] (DEFAULT_TEMPLATES dt),
      macros := [(.str "name", "d1"), (.str "prefix", "P1:")],
      main_widget := some (.loaded (default_template_path .detailed_screen)),
      current_template := some (default_template_path .detailed_screen),
      layout := [.loaded (default_template_path .detailed_screen)] }

/-- Result state of a subsequent `add_device device_d2 none` on `c7_state1`. -/
def c7_state2 : ComposerState :=
  { pre_init_state with
      devices := [device_d2],
      templates := fun dt =>
        merge_view (macro_lookup all_none_mt dt.name) [] (DEFAULT_TEMPLATES dt),
      macros := [(.str "name", "d2"), (.str "prefix", "P2:")],
      main_widget := some (.loaded (default_template_path .detailed_screen)),
      current_template := some (default_template_path .detailed_screen),
      layout := [.loaded (default_template_path .detailed_screen)] }

theorem foldl_insert_mem (l : List String) (acc : List String) (x : String) :
    x ∈ l.foldl insert_if_absent acc ↔ x ∈ acc ∨ x ∈ l := by
  induction l generalizing acc with
  | nil => simp
  | cons a as ih =>
    simp only [List.foldl_cons, ih, List.mem_cons]
    unfold insert_if_absent
    split
    case isTrue h =>
      constructor
      · rintro (hx | hx)
        · exact Or.inl hx
        · exact Or.inr (Or.inr hx)
      · rintro (hx | hx | hx)
        · exact Or.inl hx
        · exact Or.inl (hx ▸ h)
        · exact Or.inr hx
    case isFalse h =>
      simp [List.mem_append, or_assoc]

theorem foldl_insert_nodup (l : List String) (acc : List String) (h : acc.Nodup) :
    (l.foldl insert_if_absent acc).Nodup := by
  induction l generalizing acc with
  | nil => exact h
  | cons a as ih =>
    rw [List.foldl_cons]
    refine ih _ ?_
    unfold insert_if_absent
    split
    · exact h
    case isFalse hna =>
      rw [List.nodup_append]
      exact ⟨h, List.nodup_singleton a, by simpa using hna⟩

theorem foldl_insert_head (l : List String) (acc : List String) (h : acc ≠ []) :
    (l.foldl insert_if_absent acc).head? = acc.head? := by
  induction l generalizing acc with
  | nil => rfl
  | cons a as ih =>
    rw [List.foldl_cons]
    have hne : insert_if_absent acc a ≠ [] := by
      unfold insert_if_absent
      split
      · exact h
      · cases acc <;> simp
    rw [ih _ hne]
    unfold insert_if_absent
    split
    · rfl
    · exact List.head?_append_of_ne_nil acc h

theorem append_filter_singleton (tl : List String) (d : String) :
    tl ++ [d].filter (fun t => decide (t ∉ tl)) = insert_if_absent tl d := by
  by_cases hd : d ∈ tl <;> simp [insert_if_absent, hd]

theorem merge_view_eq_dedup (mt : Option String) (fns : List String) (d : String) :
    merge_view mt fns [d] = dedup_first (mt.toList ++ (fns ++ [d])) := by
  cases mt <;>
    simp only [merge_view, dedup_first, Option.toList, List.nil_append, List.cons_append,
      List.foldl_append, List.foldl_cons, List.foldl_nil, List.not_mem_nil, if_false] <;>
    exact append_filter_singleton _ _

theorem dedup_first_cons (m : String) (rest : List String) :
    dedup_first (m :: rest) = rest.foldl insert_if_absent [m] := by
  simp [dedup_first, insert_if_absent]

theorem dedup_first_head_cons (m : String) (rest : List String) :
    (dedup_first (m :: rest)).head? = some m := by
  rw [dedup_first_cons, foldl_insert_head rest [m] (by simp)]
  rfl

theorem merge_view_count_default (mt : Option String) (fns : List String) (d : String) :
    (merge_view mt fns [d]).count d = 1 := by
  rw [merge_view_eq_dedup]
  refine List.count_eq_one_of_mem (foldl_insert_nodup _ _ List.nodup_nil) ?_
  exact (foldl_insert_mem _ _ _).mpr (Or.inr (by simp))

/-- Claim C1: per view, `search_for_templates` fills the template list by
`merge_view` applied to the macro candidate, the class-hierarchy candidates
(most-specific-first, as delivered by the directory scan) and the built-in
default; this theorem shows the merge realises the claimed fixed order with
first-occurrence-wins deduplication: the result is exactly the
first-occurrence dedup of (macro candidate, hierarchy candidates, default),
is duplicate-free, and a present macro candidate sits at position 0 and
occurs exactly once even when the same path also occurs among the hierarchy
candidates. -/
theorem claim_C1 (m : String) (filenames : List String) (dt : DisplayTypes) :
    merge_view none filenames (DEFAULT_TEMPLATES dt) =
      dedup_first (filenames ++ [default_template_path dt]) ∧
    merge_view (some m) filenames (DEFAULT_TEMPLATES dt) =
      dedup_first (m :: (filenames ++ [default_template_path dt])) ∧
    (merge_view none filenames (DEFAULT_TEMPLATES dt)).Nodup ∧
    (merge_view (some m) filenames (DEFAULT_TEMPLATES dt)).Nodup ∧
    (merge_view (some m) filenames (DEFAULT_TEMPLATES dt)).head? = some m ∧
    (merge_view (some m) filenames (DEFAULT_TEMPLATES dt)).count m = 1 := by
  simp only [DEFAULT_TEMPLATES]
  have h1 := merge_view_eq_dedup none filenames (default_template_path dt)
  have h2 := merge_view_eq_dedup (some m) filenames (default_template_path dt)
  simp only [Option.toList, List.nil_append, List.cons_append] at h1 h2
  refine ⟨h1, h2, ?_, ?_, ?_, ?_⟩
  · rw [h1]; exact foldl_insert_nodup _ _ List.nodup_nil
  · rw [h2]; exact foldl_insert_nodup _ _ List.nodup_nil
  · rw [h2]; exact dedup_first_head_cons _ _
  · rw [h2]
    refine List.count_eq_one_of_mem (foldl_insert_nodup _ _ List.nodup_nil) ?_
    exact (foldl_insert_mem _ _ _).mpr (Or.inr (List.mem_cons_self _ _))

/-- Claim C4 is refuted by the code: `_get_templates_from_macros` looks up
`self._macros[display_type]` — keyed by the `DisplayTypes` member, never by
the view-name strings `"detailed"` or `"detailed_screen"` — so a string-keyed
macro entry is silently ignored and the view's first entry stays the
hierarchy/default candidate; and when the mapping *does* carry the enum key,
line 232 reads the never-assigned attribute `self._templates_from_macros`
and `search_for_templates` raises `AttributeError` before any existence
check.  All three facts are evaluated on the spec's Example-2 input. -/
theorem claim_C4_bug :
    ((search_for_templates (fun _ _ => [])
        { pre_init_state with
            devices := [⟨"mot", some "PV:", none, "Motor"⟩],
            macros := [(.str "detailed", "/tmp/custom.ui")] }).map
        (fun s => s.templates .detailed_screen)
      = .ok [default_template_path .detailed_screen]) ∧
    ((search_for_templates (fun _ _ => [])
        { pre_init_state with
            devices := [⟨"mot", some "PV:", none, "Motor"⟩],
            macros := [(.str "detailed_screen", "/tmp/custom.ui")] }).map
        (fun s => s.templates .detailed_screen)
      = .ok [default_template_path .detailed_screen]) ∧
    (search_for_templates (fun _ _ => [])
        { pre_init_state with
            devices := [⟨"mot", some "PV:", none, "Motor"⟩],
            macros := [(.enum .detailed_screen, "/tmp/custom.ui")] }
      = .error .attributeError) :=
  ⟨rfl, rfl, rfl⟩

/-- Claim C5 is refuted by the code: in the no-candidate branch
`load_best_template` clears the previous subtree, creates the placeholder
`QWidget` and then `return`s at line 207 — before the `try/finally` whose
`finally` is the only place a widget is added to the layout — so the
placeholder is never mounted and the layout is left with zero widgets. -/
theorem claim_C5_bug :
    ((load_best_template (fun _ => false) none
        { pre_init_state with main_widget := some (.loaded "/x.ui"),
                              layout := [.loaded "/x.ui"] }).1).layout = [] ∧
    ((load_best_template (fun _ => false) none
        { pre_init_state with main_widget := some (.loaded "/x.ui"),
                              layout := [.loaded "/x.ui"] }).1).main_widget
      = some Widget.placeholder ∧
    ((load_best_template (fun _ => false) none
        { pre_init_state with main_widget := some (.loaded "/x.ui"),
                              layout := [.loaded "/x.ui"] }).1).current_template
      = none :=
  ⟨rfl, rfl, rfl⟩

/-- Claim C9 is refuted by the code: when device instantiation raises,
the `except` block of `from_class` evaluates the local `obj` that the failed
assignment never bound, so the factory raises `UnboundLocalError` to its
caller instead of logging and returning `None`. -/
theorem claim_C9_bug :
    from_class (fun _ => false) (fun _ _ => [])
        (fun _ => .error "construction failed") "SomeDeviceClass" none none
      = .error PyErr.unboundLocalError ∧
    ∀ r, from_class (fun _ => false) (fun _ _ => [])
        (fun _ => .error "construction failed") "SomeDeviceClass" none none
      ≠ .ok r :=
  ⟨rfl, fun _ h => Except.noConfusion h⟩

/-- Claim C8 is refuted at the initial state: `__init__` (line 77) creates an
empty candidate list per view, so before any device is bound the detailed
view's list contains zero built-in default entries, not exactly one. -/
theorem claim_C8_counterexample :
    (init_state (fun _ => false)).templates DisplayTypes.detailed_screen = [] ∧
    ((init_state (fun _ => false)).templates DisplayTypes.detailed_screen).count
      (default_template_path DisplayTypes.detailed_screen) = 0 :=
  ⟨rfl, rfl⟩

/-- Claim C8 as amended: once `search_for_templates` has completed with a
device bound (and the macro resolver did not raise), each view's template
list contains the built-in default entry exactly once; before that — in
particular in the freshly constructed state — the lists are empty. -/
theorem claim_C8_amended (ftc : String → String → List String)
    (s : ComposerState) (d : Device) (hdev : s.devices = [d])
    (mt : List (String × Option String))
    (hm : _get_templates_from_macros s.macros (some s.macros) = Except.ok mt)
    (dt : DisplayTypes) :
    (search_for_templates ftc s).map
      (fun s2 => (s2.templates dt).count (default_template_path dt)) = Except.ok 1 := by
  have hd : s.device = some d := by unfold ComposerState.device; rw [hdev]
  unfold search_for_templates
  rw [hd, hm]
  exact congrArg Except.ok (merge_view_count_default _ _ _)

theorem load_best_template_preserves (loadOk : String → Bool)
    (macroArg : Option Macros) (s : ComposerState) :
    ((load_best_template loadOk macroArg s).1).devices = s.devices ∧
    ((load_best_template loadOk macroArg s).1).hasLayout = s.hasLayout ∧
    ((load_best_template loadOk macroArg s).1).templates = s.templates ∧
    ((load_best_template loadOk macroArg s).1).forced_template = s.forced_template ∧
    ((load_best_template loadOk macroArg s).1).display_type = s.display_type := by
  unfold load_best_template
  split
  · exact ⟨rfl, rfl, rfl, rfl, rfl⟩
  · cases hmw : s.main_widget <;>
      simp only [Option.isSome_none, Option.isSome_some, if_true, if_false,
        Bool.false_eq_true, ite_true, ite_false] <;>
      split <;>
      first
        | exact ⟨rfl, rfl, rfl, rfl, rfl⟩
        | (split <;> exact ⟨rfl, rfl, rfl, rfl, rfl⟩)

theorem load_best_template_macros (loadOk : String → Bool) (m : Macros)
    (hm : m ≠ []) (s : ComposerState) (hL : s.hasLayout = true) :
    ((load_best_template loadOk (some m) s).1).macros = m := by
  unfold load_best_template
  rw [if_neg (by simp [hL])]
  cases hmw : s.main_widget <;>
    simp only [Option.isSome_none, Option.isSome_some, if_true, if_false,
      Bool.false_eq_true, ite_true, ite_false] <;>
    split <;> split <;> simp_all

/-- Claim C2: on an initialised composer, `load_best_template` sets the
current template to the forced override when set, else to the head of the
active view's template list, else to none — with the chosen path surviving
only if its load succeeds; in particular a loadable forced override always
wins regardless of the registry's contents. -/
theorem claim_C2 (loadOk : String → Bool) (macroArg : Option Macros)
    (s : ComposerState) (hL : s.hasLayout = true) :
    ((load_best_template loadOk macroArg s).1).current_template =
      (match chosen_template s with
       | none => none
       | some p => if loadOk p then some p else none) ∧
    (s.forced_template ≠ "" → loadOk s.forced_template = true →
      ((load_best_template loadOk macroArg s).1).current_template =
        some s.forced_template) := by
  have main : ((load_best_template loadOk macroArg s).1).current_template =
      (match chosen_template s with
       | none => none
       | some p => if loadOk p then some p else none) := by
    unfold load_best_template chosen_template get_best_template get_best_template_logs
    rw [if_neg (by simp [hL])]
    cases hmw : s.main_widget <;>
      by_cases hf : s.forced_template = "" <;>
      simp only [Option.isSome_none, Option.isSome_some, if_true, if_false,
        Bool.false_eq_true, ite_true, ite_false, hf, ne_eq, not_true_eq_false,
        not_false_eq_true] <;>
      first
        | (cases hts : s.templates s.display_type <;>
            simp only [hts, List.head?_nil, List.head?_cons] <;>
            first
              | rfl
              | (split <;> rfl))
        | (split <;> rfl)
  refine ⟨main, fun hf hlo => ?_⟩
  rw [main]
  unfold chosen_template
  rw [if_pos hf]
  simp [hlo]

/-- Witness for claim C2: a loadable forced override on a concrete state. -/
theorem claim_C2_witness :
    ((load_best_template (fun _ => true) none
        { pre_init_state with
            forced_template := "/forced.ui",
            templates := fun _ => ["/other.ui"] }).1).current_template =
      (match chosen_template
          { pre_init_state with
              forced_template := "/forced.ui",
              templates := fun _ => ["/other.ui"] } with
       | none => none
       | some p => if (fun _ => true) p then some p else none) ∧
    (({ pre_init_state with
          forced_template := "/forced.ui",
          templates := fun _ => ["/other.ui"] } : ComposerState).forced_template ≠ "" →
      (fun _ => true) "/forced.ui" = true →
      ((load_best_template (fun _ => true) none
          { pre_init_state with
              forced_template := "/forced.ui",
              templates := fun _ => ["/other.ui"] }).1).current_template =
        some "/forced.ui") :=
  claim_C2 (fun _ => true) none
    { pre_init_state with
        forced_template := "/forced.ui",
        templates := fun _ => ["/other.ui"] } rfl

/-- Claim C3: when the chosen template's load fails (for any reason,
including a forced override naming a nonexistent file), the resolution emits
exactly one error-severity log record, leaves an empty placeholder as the
(mounted) main widget, and sets the current template to none.  The failure is
contained by construction: `load_best_template` is a total function into a
result state — the bare `except Exception` of lines 209-219 never re-raises. -/
theorem claim_C3 (loadOk : String → Bool) (macroArg : Option Macros)
    (s : ComposerState) (hL : s.hasLayout = true) (p : String)
    (hp : chosen_template s = some p) (hfail : loadOk p = false) :
    ((load_best_template loadOk macroArg s).2).count LogLevel.error = 1 ∧
    ((load_best_template loadOk macroArg s).1).current_template = none ∧
    ((load_best_template loadOk macroArg s).1).main_widget =
      some Widget.placeholder ∧
    ((load_best_template loadOk macroArg s).1).layout =
      (if s.main_widget.isSome then [] else s.layout) ++ [Widget.placeholder] := by
  unfold chosen_template get_best_template at hp
  unfold load_best_template
  unfold get_best_template get_best_template_logs
  rw [if_neg (by simp [hL])]
  by_cases hf : s.forced_template = ""
  · rw [if_neg (by simp [hf])] at hp
    cases hts : s.templates s.display_type with
    | nil => rw [hts] at hp; simp at hp
    | cons t ts =>
      rw [hts, List.head?_cons] at hp
      injection hp with hp
      subst hp
      cases hmw : s.main_widget <;>
        simp [hf, hts, hfail, List.count_cons]
  · rw [if_pos hf] at hp
    injection hp with hp
    subst hp
    cases hmw : s.main_widget <;>
      simp [hf, hfail, List.count_cons]

/-- Witness for claim C3: the spec's Example 3 — a forced override pointing
at a file whose load fails. -/
theorem claim_C3_witness :
    ((load_best_template (fun _ => false) none
        { pre_init_state with
            forced_template := "/does/not/exist.ui" }).2).count LogLevel.error = 1 ∧
    ((load_best_template (fun _ => false) none
        { pre_init_state with
            forced_template := "/does/not/exist.ui" }).1).current_template = none ∧
    ((load_best_template (fun _ => false) none
        { pre_init_state with
            forced_template := "/does/not/exist.ui" }).1).main_widget =
      some Widget.placeholder ∧
    ((load_best_template (fun _ => false) none
        { pre_init_state with
            forced_template := "/does/not/exist.ui" }).1).layout =
      (if ({ pre_init_state with
              forced_template := "/does/not/exist.ui" } : ComposerState).main_widget.isSome
        then [] else ({ pre_init_state with
              forced_template := "/does/not/exist.ui" } : ComposerState).layout)
        ++ [Widget.placeholder] :=
  claim_C3 (fun _ => false) none
    { pre_init_state with forced_template := "/does/not/exist.ui" } rfl
    "/does/not/exist.ui" rfl rfl

/-- Witness for the amended claim C8 at a concrete bound device. -/
theorem claim_C8_witness :
    (search_for_templates (fun _ _ => ["/app/templates/Motor_detailed.ui"])
        { pre_init_state with devices := [⟨"mot", some "PV:", none, "Motor"⟩] }).map
      (fun s2 => (s2.templates DisplayTypes.detailed_screen).count
        (default_template_path DisplayTypes.detailed_screen)) = Except.ok 1 :=
  claim_C8_amended (fun _ _ => ["/app/templates/Motor_detailed.ui"])
    { pre_init_state with devices := [⟨"mot", some "PV:", none, "Motor"⟩] }
    ⟨"mot", some "PV:", none, "Motor"⟩ rfl
    [("embedded_screen", none), ("detailed_screen", none), ("engineering_screen", none)]
    rfl DisplayTypes.detailed_screen

theorem mlookup_append_of_eq_none {m : Macros} {k : MKey} (h : mlookup m k = none)
    (v : String) : mlookup (m ++ [(k, v)]) k = some v := by
  induction m with
  | nil => simp [mlookup]
  | cons a rest ih =>
    obtain ⟨k', v'⟩ := a
    simp only [mlookup, List.cons_append] at h ⊢
    split at h
    · simp at h
    case isFalse hk =>
      rw [if_neg hk]
      exact ih h

theorem mlookup_append_of_eq_some {m : Macros} {k : MKey} {v : String}
    (h : mlookup m k = some v) (l : Macros) : mlookup (m ++ l) k = some v := by
  induction m with
  | nil => simp [mlookup] at h
  | cons a rest ih =>
    obtain ⟨k', v'⟩ := a
    simp only [mlookup, List.cons_append] at h ⊢
    split at h
    case isTrue hk => rw [if_pos hk]; exact h
    case isFalse hk => rw [if_neg hk]; exact ih h

theorem mlookup_name_step (device : Device) (m0 : Macros) :
    mlookup (derive_macros_name_step device m0) (MKey.str "name") =
      some ((mlookup m0 (MKey.str "name")).getD device.name) := by
  unfold derive_macros_name_step
  cases hn : mlookup m0 (MKey.str "name") with
  | none => rw [if_pos rfl, mlookup_append_of_eq_none hn]; rfl
  | some v => rw [if_neg (by simp), hn]; rfl

theorem derive_macros_name (device : Device) (macroArg : Option Macros) :
    mlookup (derive_macros device macroArg) (MKey.str "name") =
      some ((mlookup (effective_base_macros device macroArg)
        (MKey.str "name")).getD device.name) := by
  have h1 := mlookup_name_step device (effective_base_macros device macroArg)
  simp only [derive_macros]
  split
  · cases hpa : device.prefix_attr with
    | some p => exact mlookup_append_of_eq_some h1 _
    | none => exact h1
  · exact h1

theorem derive_macros_prefix_attr (device : Device) (macroArg : Option Macros)
    (p : String) (hpa : device.prefix_attr = some p) :
    (mlookup (derive_macros device macroArg) (MKey.str "prefix")).isSome = true := by
  simp only [derive_macros]
  split
  case isTrue h =>
    simp only [hpa]
    rw [mlookup_append_of_eq_none h]
    rfl
  case isFalse h =>
    cases hx : mlookup (derive_macros_name_step device
        (effective_base_macros device macroArg)) (MKey.str "prefix") with
    | none => exact absurd hx h
    | some v => rfl

theorem derive_macros_ne_nil (device : Device) (macroArg : Option Macros) :
    derive_macros device macroArg ≠ [] := by
  intro he
  have h := derive_macros_name device macroArg
  rw [he] at h
  simp [mlookup] at h

theorem add_device_pre_fields (device : Device) (s : ComposerState) :
    (add_device_pre device s).devices = [device] ∧
    (add_device_pre device s).hasLayout = s.hasLayout ∧
    (add_device_pre device s).macros = s.macros ∧
    (add_device_pre device s).main_widget = s.main_widget := by
  unfold add_device_pre
  split
  · exact ⟨rfl, rfl, rfl, rfl⟩
  case isFalse h =>
    have he : s.devices = [] := not_ne_iff.mp h
    exact ⟨by simp [he], rfl, rfl, rfl⟩

theorem add_device_pre_device (device : Device) (s : ComposerState) :
    (add_device_pre device s).device = some device := by
  have h := (add_device_pre_fields device s).1
  unfold ComposerState.device
  rw [h]

theorem search_for_templates_preserves (ftc : String → String → List String)
    (s s' : ComposerState) (h : search_for_templates ftc s = Except.ok s') :
    s'.devices = s.devices ∧ s'.hasLayout = s.hasLayout ∧ s'.macros = s.macros ∧
    s'.main_widget = s.main_widget := by
  unfold search_for_templates at h
  cases hd : s.device with
  | none =>
    rw [hd] at h
    injection h with h
    subst h
    exact ⟨rfl, rfl, rfl, rfl⟩
  | some d =>
    rw [hd] at h
    cases hm : _get_templates_from_macros s.macros (some s.macros) with
    | error e => rw [hm] at h; exact absurd h (by simp)
    | ok mt =>
      rw [hm] at h
      injection h with h
      subst h
      exact ⟨rfl, rfl, rfl, rfl⟩

theorem merge_view_ne_nil (mt : Option String) (fns : List String) (d : String) :
    merge_view mt fns [d] ≠ [] := by
  intro he
  have hd : d ∈ merge_view mt fns [d] := by
    rw [merge_view_eq_dedup]
    exact (foldl_insert_mem _ _ _).mpr (Or.inr (by simp))
  rw [he] at hd
  simp at hd

theorem search_for_templates_ne_nil (ftc : String → String → List String)
    (s s' : ComposerState) (d : Device) (hd : s.device = some d)
    (h : search_for_templates ftc s = Except.ok s') (dt : DisplayTypes) :
    s'.templates dt ≠ [] := by
  unfold search_for_templates at h
  rw [hd] at h
  cases hm : _get_templates_from_macros s.macros (some s.macros) with
  | error e => rw [hm] at h; exact absurd h (by simp)
  | ok mt =>
    rw [hm] at h
    injection h with h
    rw [← h]
    exact merge_view_ne_nil _ _ _

theorem load_best_template_main_widget (loadOk : String → Bool)
    (macroArg : Option Macros) (s : ComposerState) (hL : s.hasLayout = true) :
    (((load_best_template loadOk macroArg s).1).main_widget).isSome = true := by
  unfold load_best_template
  rw [if_neg (by simp [hL])]
  cases hmw : s.main_widget <;>
    simp only [Option.isSome_none, Option.isSome_some, if_true, if_false,
      Bool.false_eq_true, ite_true, ite_false] <;>
    split <;>
    first
      | rfl
      | (split <;> rfl)

theorem load_best_template_mounts (loadOk : String → Bool) (macroArg : Option Macros)
    (s : ComposerState) (hL : s.hasLayout = true) (hmw : s.main_widget.isSome = true)
    (hne : s.templates s.display_type ≠ []) :
    ((load_best_template loadOk macroArg s).1).layout =
      Option.toList ((load_best_template loadOk macroArg s).1).main_widget := by
  unfold load_best_template
  rw [if_neg (by simp [hL])]
  cases hmwc : s.main_widget with
  | none => rw [hmwc] at hmw; simp at hmw
  | some w =>
    simp only [Option.isSome_some, if_true, ite_true]
    by_cases hf : s.forced_template = ""
    · unfold get_best_template get_best_template_logs
      cases hts : s.templates s.display_type with
      | nil => exact absurd hts hne
      | cons t ts =>
        simp only [hf, ne_eq, not_true_eq_false, if_false, ite_false, hts,
          List.head?_cons]
        split <;> rfl
    · simp only [hf, ne_eq, not_false_eq_true, if_true, ite_true]
      split <;> rfl

theorem add_device_result (loadOk : String → Bool) (ftc : String → String → List String)
    (device : Device) (macroArg : Option Macros) (s s' : ComposerState)
    (l : List LogLevel)
    (h : add_device loadOk ftc device macroArg s = Except.ok (s', l)) :
    s'.devices = [device] ∧ s'.hasLayout = s.hasLayout ∧
    (s.hasLayout = true → s'.macros = derive_macros device macroArg) ∧
    (s.hasLayout = true → (s'.main_widget).isSome = true) ∧
    (s.hasLayout = true → s.main_widget.isSome = true →
      s'.layout = Option.toList s'.main_widget) := by
  unfold add_device at h
  cases hs : search_for_templates ftc (add_device_pre device s) with
  | error e => rw [hs] at h; exact absurd h (by simp [Except.map])
  | ok s₃ =>
    rw [hs] at h
    simp only [Except.map] at h
    injection h with h
    obtain ⟨hpre1, hpre2, hpre3, hpre4⟩ := add_device_pre_fields device s
    obtain ⟨hs1, hs2, -, hs4⟩ := search_for_templates_preserves _ _ _ hs
    obtain ⟨hl1, hl2, -, -, -⟩ := load_best_template_preserves loadOk
      (some (derive_macros device macroArg)) s₃
    have hs' : s' = (load_best_template loadOk
        (some (derive_macros device macroArg)) s₃).1 := by rw [h]
    have hL3 : s.hasLayout = true → s₃.hasLayout = true := by
      intro hL; rw [hs2, hpre2]; exact hL
    refine ⟨?_, ?_, ?_, ?_, ?_⟩
    · rw [hs', hl1, hs1, hpre1]
    · rw [hs', hl2, hs2, hpre2]
    · intro hL
      rw [hs']
      exact load_best_template_macros _ _ (derive_macros_ne_nil device macroArg)
        _ (hL3 hL)
    · intro hL
      rw [hs']
      exact load_best_template_main_widget _ _ _ (hL3 hL)
    · intro hL hmw
      rw [hs']
      refine load_best_template_mounts _ _ _ (hL3 hL) ?_ ?_
      · rw [hs4, hpre4]; exact hmw
      · exact search_for_templates_ne_nil ftc _ _ device
          (add_device_pre_device device s) hs s₃.display_type

/-- Claim C6: `search_for_templates` is idempotent and deterministic — if a
recomputation succeeded, running it again on the resulting state (same device,
same macros, same scan results) succeeds and yields identical template lists
for every view.  Determinism itself is structural: the embedding of
`search_for_templates` is a pure function of the state and the scan. -/
theorem claim_C6 (ftc : String → String → List String) (s s₁ : ComposerState)
    (h : search_for_templates ftc s = Except.ok s₁) (dt : DisplayTypes) :
    (search_for_templates ftc s₁).map (fun s₂ => s₂.templates dt) =
      Except.ok (s₁.templates dt) := by
  unfold search_for_templates at h
  cases hd : s.device with
  | none =>
    rw [hd] at h
    injection h with h
    subst h
    unfold search_for_templates
    rw [hd]
    rfl
  | some d =>
    rw [hd] at h
    cases hm : _get_templates_from_macros s.macros (some s.macros) with
    | error e => rw [hm] at h; exact absurd h (by simp)
    | ok mt =>
      rw [hm] at h
      injection h with h
      have hd2 : ComposerState.device s₁ = some d := by rw [← h]; exact hd
      have hm2 : _get_templates_from_macros s₁.macros (some s₁.macros) =
          Except.ok mt := by rw [← h]; exact hm
      unfold search_for_templates
      rw [hd2, hm2]
      rw [← h]
      rfl

/-- Witness for claim C6 at a concrete searched state. -/
theorem claim_C6_witness :
    (search_for_templates (fun _ _ => ["/app/templates/Motor_detailed.ui"])
        motor_searched).map
      (fun s₂ => s₂.templates DisplayTypes.detailed_screen) =
      Except.ok (motor_searched.templates DisplayTypes.detailed_screen) :=
  claim_C6 (fun _ _ => ["/app/templates/Motor_detailed.ui"]) motor_state
    motor_searched rfl DisplayTypes.detailed_screen

/-- Claim C7: binding a second device evicts the first together with its
macros and mounted subtree — after two `add_device` calls the device
collection holds exactly the second device, the effective macros are the ones
derived for the second device, and the layout holds exactly one widget
subtree: the main widget produced by the second resolution (the first bind's
subtree was torn down when the layout was cleared). -/
theorem claim_C7 (loadOk : String → Bool) (ftc : String → String → List String)
    (d₁ d₂ : Device) (m₁ m₂ : Option Macros) (s : ComposerState)
    (hL : s.hasLayout = true) (s₁ s₂ : ComposerState) (l₁ l₂ : List LogLevel)
    (h₁ : add_device loadOk ftc d₁ m₁ s = Except.ok (s₁, l₁))
    (h₂ : add_device loadOk ftc d₂ m₂ s₁ = Except.ok (s₂, l₂)) :
    s₂.devices = [d₂] ∧ s₂.macros = derive_macros d₂ m₂ ∧
    (s₂.main_widget).isSome = true ∧
    s₂.layout = Option.toList s₂.main_widget := by
  obtain ⟨-, hHL1, -, hmw1, -⟩ := add_device_result loadOk ftc d₁ m₁ s s₁ l₁ h₁
  obtain ⟨hd2, -, hm2, hmw2, hlay2⟩ := add_device_result loadOk ftc d₂ m₂ s₁ s₂ l₂ h₂
  have hL1 : s₁.hasLayout = true := by rw [hHL1]; exact hL
  exact ⟨hd2, hm2 hL1, hmw2 hL1, hlay2 hL1 (hmw1 hL)⟩

/-- Witness for claim C7: two concrete successive binds. -/
theorem claim_C7_witness :
    c7_state2.devices = [device_d2] ∧ c7_state2.macros = derive_macros device_d2 none ∧
    (c7_state2.main_widget).isSome = true ∧
    c7_state2.layout = Option.toList c7_state2.main_widget :=
  claim_C7 (fun _ => true) (fun _ _ => []) device_d1 device_d2 none none
    pre_init_state rfl c7_state1 c7_state2
    [LogLevel.debug, LogLevel.debug] [LogLevel.debug, LogLevel.debug, LogLevel.debug]
    rfl rfl

/-- Claim C10: after a completed `add_device`, the composer's effective macro
mapping always carries the key `'name'` (with the device's name when the
caller-supplied/metadata mapping lacked one) and, when the device has a
`prefix` attribute, the key `'prefix'`. -/
theorem claim_C10 (loadOk : String → Bool) (ftc : String → String → List String)
    (d : Device) (macroArg : Option Macros) (s : ComposerState)
    (hL : s.hasLayout = true) (s' : ComposerState) (l : List LogLevel)
    (h : add_device loadOk ftc d macroArg s = Except.ok (s', l)) :
    (mlookup s'.macros (MKey.str "name")).isSome = true ∧
    (mlookup (effective_base_macros d macroArg) (MKey.str "name") = none →
      mlookup s'.macros (MKey.str "name") = some (Device.name d)) ∧
    (∀ p, Device.prefix_attr d = some p →
      (mlookup s'.macros (MKey.str "prefix")).isSome = true) := by
  obtain ⟨-, -, hmac, -, -⟩ := add_device_result loadOk ftc d macroArg s s' l h
  rw [hmac hL]
  refine ⟨?_, ?_, ?_⟩
  · rw [derive_macros_name]; rfl
  · intro hn; rw [derive_macros_name, hn]; rfl
  · intro p hp; exact derive_macros_prefix_attr d macroArg p hp

/-- Witness for claim C10: a concrete bind with no caller-supplied macros. -/
theorem claim_C10_witness :
    (mlookup c7_state1.macros (MKey.str "name")).isSome = true ∧
    (mlookup (effective_base_macros device_d1 none) (MKey.str "name") = none →
      mlookup c7_state1.macros (MKey.str "name") = some (Device.name device_d1)) ∧
    (∀ p, Device.prefix_attr device_d1 = some p →
      (mlookup c7_state1.macros (MKey.str "prefix")).isSome = true) :=
  claim_C10 (fun _ => true) (fun _ _ => []) device_d1 none pre_init_state rfl
    c7_state1 [LogLevel.debug, LogLevel.debug] rfl

end Typhos
